import Mathlib

/-!
Verification development for `hy3dgen/shapegen/models/autoencoders/surface_extractors.py`.

The Python module is shallowly embedded: numbers are `ℚ` (exact arithmetic standing
for the floats), tensors/arrays of scalars are `List ℚ`, vertex arrays are
`List Vec3`, face arrays are `List Face`.  Python code that can raise is modelled
with `Except PyExc`; the external isosurfacing kernels (`skimage.measure.marching_cubes`
and the optional `diso.DiffDMC` backend) are parameters of the definitions, since they
live outside this repository.  Mutable per-instance attributes of
`DMCSurfaceExtractor` become an explicit state record threaded through `run`.
-/

/-- A 3D point/vector with rational coordinates (models a float triple). -/
def Vec3 : Type := ℚ × ℚ × ℚ

instance : DecidableEq Vec3 := by unfold Vec3; infer_instance

/-- A triangle face: three vertex indices (models one row of an integer `(F,3)` array). -/
def Face : Type := ℕ × ℕ × ℕ

instance : DecidableEq Face := by unfold Face; infer_instance

/-- A dense scalar field (one batch item `grid_logits[i]`), flattened to a list. -/
def ScalarField : Type := List ℚ

instance : DecidableEq ScalarField := by unfold ScalarField; infer_instance

/-- The Python exception classes relevant to this module.  All constructors model
subclasses of `Exception` (so all are caught by `except Exception`);
`notImplError` is `NotImplementedError`, a subclass of `RuntimeError`; `other`
covers every exception class not in the explicitly named set. -/
inductive PyExc where
  | importError
  | runtimeError
  | valueError
  | typeError
  | attributeError
  | notImplError
  | other (msg : String)
deriving DecidableEq, Repr

/-- A value a Python `run` method can return to the batch driver: either a proper
`(vertices, faces)` pair, or the `NotImplementedError` class object that the base
class `SurfaceExtractor.run` returns (it `return`s the class instead of raising). -/
inductive PyVal where
  | pair (vertices : List Vec3) (faces : List Face)
  | excClass
deriving DecidableEq

/-- Tuple-unpacking `vertices, faces = <val>`: succeeds on a pair, raises
`TypeError` on the non-iterable `NotImplementedError` class object. -/
def unpack2 : PyVal → Except PyExc (List Vec3 × List Face)
  | PyVal.pair v f => Except.ok (v, f)
  | PyVal.excClass => Except.error PyExc.typeError

/-- Output record `Latent2MeshOutput(mesh_v=vertices, mesh_f=faces)`. -/
structure Latent2MeshOutput where
  mesh_v : List Vec3
  mesh_f : List Face
deriving DecidableEq

/- ### Vector helpers (componentwise arithmetic on `Vec3`) -/

def vecAdd (a b : Vec3) : Vec3 := (a.1 + b.1, a.2.1 + b.2.1, a.2.2 + b.2.2)

def vecSub (a b : Vec3) : Vec3 := (a.1 - b.1, a.2.1 - b.2.1, a.2.2 - b.2.2)

def vecMin (a b : Vec3) : Vec3 := (min a.1 b.1, min a.2.1 b.2.1, min a.2.2 b.2.2)

def vecMax (a b : Vec3) : Vec3 := (max a.1 b.1, max a.2.1 b.2.1, max a.2.2 b.2.2)

/-- Models `vertices.min(dim=0)[0]`: componentwise minimum over the vertex list.
`torch` raises on an empty tensor; the `[]` case is a junk value never relied on. -/
def vertMin : List Vec3 → Vec3
  | [] => (0, 0, 0)
  | v :: vs => vs.foldl vecMin v

/-- Models `vertices.max(dim=0)[0]`: componentwise maximum over the vertex list. -/
def vertMax : List Vec3 → Vec3
  | [] => (0, 0, 0)
  | v :: vs => vs.foldl vecMax v

/-- Computes `vert_center = 0.5 * (vert_min + vert_max)`. -/
def vertCenter (vs : List Vec3) : Vec3 :=
  let m := vertMin vs
  let M := vertMax vs
  ((m.1 + M.1) / 2, (m.2.1 + M.2.1) / 2, (m.2.2 + M.2.2) / 2)

/-- Function `center_vertices`: translate the vertices so that the bounding box is
centered at zero (`return vertices - vert_center`). -/
def center_vertices (vs : List Vec3) : List Vec3 :=
  vs.map (fun v => vecSub v (vertCenter vs))

/- ### Bounds and box statistics -/

/-- The `bounds` argument: a single float scalar, or an explicit 6-sequence
`(minx,miny,minz,maxx,maxy,maxz)`. -/
inductive Bounds where
  | scalar (b : ℚ)
  | box (x0 y0 z0 x1 y1 z1 : ℚ)
deriving DecidableEq

/-- Method `SurfaceExtractor._compute_box_stat(bounds, octree_resolution)`:
scalar bounds expand to `[-b,-b,-b,b,b,b]`; then
`bbox_min = bounds[0:3]`, `bbox_size = bounds[3:6] - bounds[0:3]`,
`grid_size = [int(octree_resolution)+1] * 3`. -/
def compute_box_stat (bounds : Bounds) (octree_resolution : ℤ) :
    (ℤ × ℤ × ℤ) × Vec3 × Vec3 :=
  let b6 : ℚ × ℚ × ℚ × ℚ × ℚ × ℚ :=
    match bounds with
    | Bounds.scalar b => (-b, -b, -b, b, b, b)
    | Bounds.box x0 y0 z0 x1 y1 z1 => (x0, y0, z0, x1, y1, z1)
  let bbox_min : Vec3 := (b6.1, b6.2.1, b6.2.2.1)
  let bbox_max : Vec3 := (b6.2.2.2.1, b6.2.2.2.2.1, b6.2.2.2.2.2)
  let bbox_size : Vec3 := vecSub bbox_max bbox_min
  let grid_size : ℤ × ℤ × ℤ :=
    (octree_resolution + 1, octree_resolution + 1, octree_resolution + 1)
  (grid_size, bbox_min, bbox_size)

/-- Computes `vertices / grid_size * bbox_size + bbox_min` (numpy broadcasting: each
coordinate is divided by the corresponding `grid_size` entry, scaled, offset). -/
def remapVertex (grid_size : ℤ × ℤ × ℤ) (bbox_min bbox_size : Vec3) (v : Vec3) : Vec3 :=
  (v.1 / (grid_size.1 : ℚ) * bbox_size.1 + bbox_min.1,
   v.2.1 / (grid_size.2.1 : ℚ) * bbox_size.2.1 + bbox_min.2.1,
   v.2.2 / (grid_size.2.2 : ℚ) * bbox_size.2.2 + bbox_min.2.2)

/- ### Classic marching cubes extractor -/

/-- The external `skimage.measure.marching_cubes(field, mc_level, method="lewiner")`
kernel: a parameter of the development.  It may raise (e.g. `ValueError` on a field
with no iso-crossing) or return raw grid-index-space vertices and faces. -/
def MCKernel : Type := ScalarField → ℚ → Except PyExc (List Vec3 × List Face)

/-- Method `MCSurfaceExtractor.run(grid_logit, *, mc_level, bounds, octree_resolution)`:
run the kernel, compute box statistics, remap vertices to world space,
pass faces through unchanged. -/
def MCSurfaceExtractor.run (mcK : MCKernel) (grid_logit : ScalarField) (mc_level : ℚ)
    (bounds : Bounds) (octree_resolution : ℤ) :
    Except PyExc (List Vec3 × List Face) :=
  match mcK grid_logit mc_level with
  | Except.error e => Except.error e
  | Except.ok (vertices, faces) =>
    let s := compute_box_stat bounds octree_resolution
    Except.ok (vertices.map (remapVertex s.1 s.2.1 s.2.2), faces)

/- ### Keyword arguments -/

/-- The keyword arguments a caller can forward to a `run` method beyond the
positionally modelled `grid_logit` and `octree_resolution`: the keyword-only
parameters `mc_level` and `bounds` (absent when not supplied), plus arbitrary
extra keyword parameters absorbed by `**kwargs`. -/
structure Kwargs where
  mc_level : Option ℚ
  bounds : Option Bounds
  extra : List (String × ℚ)
deriving DecidableEq

/-- Method `MCSurfaceExtractor.run` invoked with a keyword dictionary: the keyword-only
parameters `mc_level` and `bounds` are required (Python raises `TypeError` when a
required keyword-only argument is missing); `**kwargs` absorbs and ignores the rest. -/
def MCSurfaceExtractor.runK (mcK : MCKernel) (grid_logit : ScalarField)
    (octree_resolution : ℤ) (k : Kwargs) :
    Except PyExc (List Vec3 × List Face) :=
  match k.mc_level, k.bounds with
  | some lvl, some b => MCSurfaceExtractor.run mcK grid_logit lvl b octree_resolution
  | _, _ => Except.error PyExc.typeError

/- ### Differentiable dual marching cubes extractor -/

/-- The optional `diso.DiffDMC` backend handle, once constructed: maps an SDF
field to raw `(vertices, faces)` (the call
`self.dmc(sdf, deform=None, return_quads=False, normalize=True)`). -/
def Backend : Type := ScalarField → List Vec3 × List Face

/-- The mutable per-instance attributes of a `DMCSurfaceExtractor`:
`dmc` (present after a successful probe — `hasattr(self, 'dmc')`),
`_use_fallback`, and `_fallback_extractor` (present once the fallback is chosen;
the `MCSurfaceExtractor` it holds is stateless, so only presence is recorded). -/
structure DMCState where
  dmc : Option Backend
  use_fallback : Bool
  fallback_extractor : Option Unit

/-- Constructor `DMCSurfaceExtractor.__init__`: `self._use_fallback = False`, no `dmc`
attribute, no `_fallback_extractor` attribute. -/
def DMCSurfaceExtractor.init : DMCState :=
  { dmc := none, use_fallback := false, fallback_extractor := none }

/-- The exception classes caught by the second `except` clause,
`(RuntimeError, ValueError, TypeError, AttributeError)`.  Python's `except`
matches subclasses too: `NotImplementedError` is a subclass of `RuntimeError`,
so it is caught by this clause as well. -/
def recoverableInitError : PyExc → Bool
  | PyExc.runtimeError => true
  | PyExc.valueError => true
  | PyExc.typeError => true
  | PyExc.attributeError => true
  | PyExc.notImplError => true
  | _ => false

/-- Computes `sdf = -grid_logit / octree_resolution` (elementwise; the subsequent
`.to(torch.float32).contiguous()` is representation-only). -/
def sdfOf (grid_logit : ScalarField) (octree_resolution : ℤ) : ScalarField :=
  List.map (fun x => -x / (octree_resolution : ℚ)) grid_logit

/-- Models `faces[:, ::-1]`: reverse the index order of one face. -/
def revFace (f : Face) : Face := (f.2.2, f.2.1, f.1)

/-- The lazy-initialization block guarded by
`if not hasattr(self, 'dmc') and not self._use_fallback:` — probe at most once.
Returns the updated state and whether a fallback warning was emitted, or the
propagated exception. -/
def probeStep (st : DMCState) (probe : Except PyExc Backend) :
    Except PyExc (DMCState × Bool) :=
  if st.dmc.isNone && !st.use_fallback then
    match probe with
    | Except.ok B => Except.ok ({ st with dmc := some B }, false)
    | Except.error PyExc.importError =>
      -- `except ImportError`: warn, set flag, construct fallback extractor
      Except.ok ({ st with use_fallback := true, fallback_extractor := some () }, true)
    | Except.error e =>
      if recoverableInitError e then
        -- `except (RuntimeError, ValueError, TypeError, AttributeError)`
        Except.ok ({ st with use_fallback := true, fallback_extractor := some () }, true)
      else
        Except.error e  -- any other exception propagates uncaught
  else
    Except.ok (st, false)

/-- The rest of `DMCSurfaceExtractor.run` after the lazy-initialization block:
`if self._use_fallback:` delegate to the internal `MCSurfaceExtractor`,
otherwise invoke `self.dmc` on the SDF, re-center the vertices, and reverse
the face index order. -/
def runAfterProbe (mcK : MCKernel) (st : DMCState) (warned : Bool)
    (grid_logit : ScalarField) (octree_resolution : ℤ) (k : Kwargs) :
    Except PyExc (DMCState × Bool × List Vec3 × List Face) :=
  if st.use_fallback then
    match st.fallback_extractor with
    | none => Except.error PyExc.attributeError  -- `self._fallback_extractor` missing
    | some _ =>
      match MCSurfaceExtractor.runK mcK grid_logit octree_resolution k with
      | Except.error e => Except.error e
      | Except.ok (vs, fs) => Except.ok (st, warned, vs, fs)
  else
    match st.dmc with
    | none => Except.error PyExc.attributeError  -- `self.dmc` missing
    | some B =>
      let r := B (sdfOf grid_logit octree_resolution)
      Except.ok (st, warned, center_vertices r.1, r.2.map revFace)

/-- Method `DMCSurfaceExtractor.run(grid_logit, *, octree_resolution, **kwargs)`.

The outcome of `from diso import DiffDMC; DiffDMC(...).to(device)` at this call
is the `probe` parameter: `Except.ok B` when the import and construction succeed
with handle `B`, `Except.error e` when they raise `e` (the probe may differ
between calls — the environment can change).

Returns the new instance state, whether a fallback warning was emitted during
this call, and the `(vertices, faces)` result; or the propagated exception. -/
def DMCSurfaceExtractor.run (mcK : MCKernel) (st : DMCState)
    (probe : Except PyExc Backend) (grid_logit : ScalarField)
    (octree_resolution : ℤ) (k : Kwargs) :
    Except PyExc (DMCState × Bool × List Vec3 × List Face) :=
  match probeStep st probe with
  | Except.error e => Except.error e
  | Except.ok (st', warned) => runAfterProbe mcK st' warned grid_logit octree_resolution k

/- ### Base class and batch driver -/

/-- Method `SurfaceExtractor.run(self, *args, **kwargs)`: `return NotImplementedError`
— the class object is *returned*, not raised. -/
def SurfaceExtractor.run (grid_logit : ScalarField) (k : Kwargs) :
    Except PyExc PyVal :=
  Except.ok PyVal.excClass

/-- One iteration of the batch loop body: call `run`, unpack the result into
`vertices, faces` (raising `TypeError` on a non-pair), cast/copy
(representation-only), and wrap; `except Exception` turns any raise into `None`. -/
def extractItem (run : ScalarField → Except PyExc PyVal) (g : ScalarField) :
    Option Latent2MeshOutput :=
  match (run g).bind unpack2 with
  | Except.ok (vs, fs) => some { mesh_v := vs, mesh_f := fs }
  | Except.error _ => none

/-- Method `SurfaceExtractor.__call__(grid_logits, **kwargs)`: iterate the leading
dimension in order, one `extractItem` per slice, appending results. -/
def SurfaceExtractor.call (run : ScalarField → Except PyExc PyVal)
    (grid_logits : List ScalarField) : List (Option Latent2MeshOutput) :=
  grid_logits.map (extractItem run)

/- ### Lemmas about componentwise min/max and centering -/

lemma vecMin_sub_sub (a b c : Vec3) :
    vecMin (vecSub a c) (vecSub b c) = vecSub (vecMin a b) c := by
  unfold vecMin vecSub
  exact Prod.ext (min_sub_sub_right _ _ _)
    (Prod.ext (min_sub_sub_right _ _ _) (min_sub_sub_right _ _ _))

lemma vecMax_sub_sub (a b c : Vec3) :
    vecMax (vecSub a c) (vecSub b c) = vecSub (vecMax a b) c := by
  unfold vecMax vecSub
  exact Prod.ext (max_sub_sub_right _ _ _)
    (Prod.ext (max_sub_sub_right _ _ _) (max_sub_sub_right _ _ _))

lemma foldl_vecMin_sub (vs : List Vec3) (c init : Vec3) :
    (vs.map (fun v => vecSub v c)).foldl vecMin (vecSub init c) =
      vecSub (vs.foldl vecMin init) c := by
  induction vs generalizing init with
  | nil => rfl
  | cons v t ih =>
    simp only [List.map_cons, List.foldl_cons, vecMin_sub_sub]
    exact ih (vecMin init v)

lemma foldl_vecMax_sub (vs : List Vec3) (c init : Vec3) :
    (vs.map (fun v => vecSub v c)).foldl vecMax (vecSub init c) =
      vecSub (vs.foldl vecMax init) c := by
  induction vs generalizing init with
  | nil => rfl
  | cons v t ih =>
    simp only [List.map_cons, List.foldl_cons, vecMax_sub_sub]
    exact ih (vecMax init v)

lemma vertMin_map_sub (vs : List Vec3) (c : Vec3) (h : vs ≠ []) :
    vertMin (vs.map (fun v => vecSub v c)) = vecSub (vertMin vs) c := by
  cases vs with
  | nil => exact absurd rfl h
  | cons v t =>
    simp only [List.map_cons, vertMin]
    exact foldl_vecMin_sub t c v

lemma vertMax_map_sub (vs : List Vec3) (c : Vec3) (h : vs ≠ []) :
    vertMax (vs.map (fun v => vecSub v c)) = vecSub (vertMax vs) c := by
  cases vs with
  | nil => exact absurd rfl h
  | cons v t =>
    simp only [List.map_cons, vertMax]
    exact foldl_vecMax_sub t c v

/-- After centering, the componentwise minimum and maximum of the vertex set
sum to zero on every axis. -/
lemma center_vertices_min_add_max (vs : List Vec3) (h : vs ≠ []) :
    vecAdd (vertMin (center_vertices vs)) (vertMax (center_vertices vs)) =
      ((0 : ℚ), (0 : ℚ), (0 : ℚ)) := by
  unfold center_vertices
  rw [vertMin_map_sub vs _ h, vertMax_map_sub vs _ h]
  unfold vecAdd vecSub vertCenter
  refine Prod.ext ?_ (Prod.ext ?_ ?_) <;> simp <;> ring

lemma vecSub_zero (v : Vec3) : vecSub v ((0 : ℚ), (0 : ℚ), (0 : ℚ)) = v := by
  unfold vecSub
  refine Prod.ext ?_ (Prod.ext ?_ ?_) <;> simp

/- ### Claim theorems -/

/-- C3: for a single scalar bounds argument `b`, `_compute_box_stat` first
expands it to the symmetric 6-tuple `(-b,-b,-b,b,b,b)` before computing
`bbox_min = (bounds[0],bounds[1],bounds[2])`,
`bbox_size = (bounds[3]-bounds[0], bounds[4]-bounds[1], bounds[5]-bounds[2])`,
and `grid_size = (octree_resolution+1, octree_resolution+1, octree_resolution+1)`. -/
theorem scalar_bounds_expansion (b : ℚ) (octree_resolution : ℤ) :
    compute_box_stat (Bounds.scalar b) octree_resolution =
      compute_box_stat (Bounds.box (-b) (-b) (-b) b b b) octree_resolution ∧
    compute_box_stat (Bounds.scalar b) octree_resolution =
      ((octree_resolution + 1, octree_resolution + 1, octree_resolution + 1),
       ((-b, -b, -b) : Vec3),
       ((b - -b, b - -b, b - -b) : Vec3)) := by
  exact ⟨rfl, rfl⟩

/-- C9: the base class `SurfaceExtractor.run` *returns* the
`NotImplementedError` class object instead of raising it; invoking the batch
driver on an extractor that does not override `run` therefore never propagates
`NotImplementedError` — the tuple unpacking raises `TypeError` inside the
per-item `try` block, and every batch item yields a `None` failure marker. -/
theorem base_run_returns_not_raises (grid_logits : List ScalarField) (k : Kwargs) :
    (∀ g : ScalarField, SurfaceExtractor.run g k = Except.ok PyVal.excClass) ∧
    unpack2 PyVal.excClass = Except.error PyExc.typeError ∧
    SurfaceExtractor.call (fun g => SurfaceExtractor.run g k) grid_logits =
      grid_logits.map (fun _ => none) := by
  refine ⟨fun g => rfl, rfl, ?_⟩
  unfold SurfaceExtractor.call
  exact List.map_congr_left fun g _ => rfl

/-- C10: `center_vertices` is idempotent: re-centering an already-centered
non-empty vertex set is the identity (in exact arithmetic). -/
theorem center_vertices_idempotent (vs : List Vec3) (h : vs ≠ []) :
    center_vertices (center_vertices vs) = center_vertices vs := by
  have hsum := center_vertices_min_add_max vs h
  have h1 : (vertMin (center_vertices vs)).1 + (vertMax (center_vertices vs)).1 = 0 :=
    congrArg Prod.fst hsum
  have h2 : (vertMin (center_vertices vs)).2.1 + (vertMax (center_vertices vs)).2.1 = 0 :=
    congrArg (fun p : Vec3 => p.2.1) hsum
  have h3 : (vertMin (center_vertices vs)).2.2 + (vertMax (center_vertices vs)).2.2 = 0 :=
    congrArg (fun p : Vec3 => p.2.2) hsum
  have hc : vertCenter (center_vertices vs) = ((0 : ℚ), (0 : ℚ), (0 : ℚ)) := by
    unfold vertCenter
    refine Prod.ext ?_ (Prod.ext ?_ ?_) <;> simp <;> linarith
  calc center_vertices (center_vertices vs)
      = (center_vertices vs).map
          (fun v => vecSub v (vertCenter (center_vertices vs))) := rfl
    _ = (center_vertices vs).map (fun v => v) := by
          rw [hc]; exact List.map_congr_left fun v _ => vecSub_zero v
    _ = center_vertices vs := List.map_id' _

/-- Witness for C10 at a concrete two-point vertex set. -/
theorem center_vertices_idempotent_witness :
    center_vertices (center_vertices [(((1 : ℚ), 2, 3) : Vec3), ((5 : ℚ), 4, 7)]) =
      center_vertices [(((1 : ℚ), 2, 3) : Vec3), ((5 : ℚ), 4, 7)] :=
  center_vertices_idempotent _ (by decide)

/-- C1: the batch driver `SurfaceExtractor.__call__` returns exactly one result
per input item, in input order; each position depends only on that item's own
extraction, and an item whose extraction raises yields the `None` marker at its
position without affecting any other item. -/
theorem batch_driver_isolation (run : ScalarField → Except PyExc PyVal)
    (grid_logits : List ScalarField) :
    (SurfaceExtractor.call run grid_logits).length = grid_logits.length ∧
    (∀ i : ℕ, (SurfaceExtractor.call run grid_logits)[i]? =
      (grid_logits[i]?).map (extractItem run)) ∧
    (∀ g e, run g = Except.error e → extractItem run g = none) := by
  refine ⟨List.length_map _ _, fun i => ?_, fun g e he => ?_⟩
  · unfold SurfaceExtractor.call
    exact List.getElem?_map _ _ _
  · unfold extractItem
    rw [he]
    rfl

/-- A concrete extractor `run` raising `ValueError` exactly on the empty field. -/
def runC : ScalarField → Except PyExc PyVal := fun g =>
  if g = ([] : List ℚ) then Except.error PyExc.valueError
  else Except.ok (PyVal.pair [((0 : ℚ), 0, 0)] [((0 : ℕ), 0, 0)])

/-- Witness for C1: a three-item batch whose middle item raises. -/
theorem batch_driver_isolation_witness :
    (SurfaceExtractor.call runC [[(1 : ℚ)], ([] : List ℚ), [(2 : ℚ)]]).length = 3 ∧
    extractItem runC ([] : List ℚ) = none := by
  have h := batch_driver_isolation runC [[(1 : ℚ)], ([] : List ℚ), [(2 : ℚ)]]
  exact ⟨h.1, h.2.2 ([] : List ℚ) PyExc.valueError (by simp [runC])⟩

/-- C2: for the Classic-MC extractor every raw vertex is remapped elementwise to
`v / grid_size * bbox_size + bbox_min` with `grid_size = (R,R,R)`,
`R = octree_resolution+1`; the grid-index vertex `(0,0,0)` maps exactly to
`bbox_min`, and `(R-1,R-1,R-1)` maps to `bbox_min + bbox_size*(R-1)/R`, which is
not `bbox_max` (the denominator is `R`, not `R-1`). -/
theorem mc_vertex_remap (mcK : MCKernel) (g : ScalarField) (mc_level : ℚ)
    (bounds : Bounds) (res : ℤ) (vs : List Vec3) (fcs : List Face)
    (hk : mcK g mc_level = Except.ok (vs, fcs))
    (hres : 0 ≤ res)
    (hsx : 0 < (compute_box_stat bounds res).2.2.1)
    (hsy : 0 < (compute_box_stat bounds res).2.2.2.1)
    (hsz : 0 < (compute_box_stat bounds res).2.2.2.2) :
    MCSurfaceExtractor.run mcK g mc_level bounds res =
      Except.ok (vs.map (remapVertex (compute_box_stat bounds res).1
        (compute_box_stat bounds res).2.1 (compute_box_stat bounds res).2.2), fcs) ∧
    (compute_box_stat bounds res).1 = (res + 1, res + 1, res + 1) ∧
    remapVertex (compute_box_stat bounds res).1 (compute_box_stat bounds res).2.1
        (compute_box_stat bounds res).2.2 (((0 : ℚ), 0, 0) : Vec3) =
      (compute_box_stat bounds res).2.1 ∧
    remapVertex (compute_box_stat bounds res).1 (compute_box_stat bounds res).2.1
        (compute_box_stat bounds res).2.2 ((((res : ℚ), (res : ℚ), (res : ℚ))) : Vec3) =
      ((compute_box_stat bounds res).2.1.1 +
         (compute_box_stat bounds res).2.2.1 * (res : ℚ) / ((res : ℚ) + 1),
       (compute_box_stat bounds res).2.1.2.1 +
         (compute_box_stat bounds res).2.2.2.1 * (res : ℚ) / ((res : ℚ) + 1),
       (compute_box_stat bounds res).2.1.2.2 +
         (compute_box_stat bounds res).2.2.2.2 * (res : ℚ) / ((res : ℚ) + 1)) ∧
    ((compute_box_stat bounds res).2.1.1 +
        (compute_box_stat bounds res).2.2.1 * (res : ℚ) / ((res : ℚ) + 1) ≠
      (compute_box_stat bounds res).2.1.1 + (compute_box_stat bounds res).2.2.1) ∧
    ((compute_box_stat bounds res).2.1.2.1 +
        (compute_box_stat bounds res).2.2.2.1 * (res : ℚ) / ((res : ℚ) + 1) ≠
      (compute_box_stat bounds res).2.1.2.1 + (compute_box_stat bounds res).2.2.2.1) ∧
    ((compute_box_stat bounds res).2.1.2.2 +
        (compute_box_stat bounds res).2.2.2.2 * (res : ℚ) / ((res : ℚ) + 1) ≠
      (compute_box_stat bounds res).2.1.2.2 + (compute_box_stat bounds res).2.2.2.2) := by
  have hRpos : (0 : ℚ) < (res : ℚ) + 1 := by
    have h0 : (0 : ℚ) ≤ (res : ℚ) := by exact_mod_cast hres
    linarith
  have hcorner : ∀ sz mn : ℚ,
      (res : ℚ) / (((res + 1 : ℤ) : ℚ)) * sz + mn = mn + sz * (res : ℚ) / ((res : ℚ) + 1) := by
    intro sz mn
    push_cast
    ring
  have hne : ∀ sz mn : ℚ, 0 < sz →
      mn + sz * (res : ℚ) / ((res : ℚ) + 1) ≠ mn + sz := by
    intro sz mn hsz0 heq
    have h1 : sz * (res : ℚ) / ((res : ℚ) + 1) = sz := by linarith
    rw [div_eq_iff (ne_of_gt hRpos)] at h1
    nlinarith
  refine ⟨?_, rfl, ?_, ?_, hne _ _ hsx, hne _ _ hsy, hne _ _ hsz⟩
  · unfold MCSurfaceExtractor.run
    rw [hk]
  · unfold remapVertex
    refine Prod.ext ?_ (Prod.ext ?_ ?_) <;> simp [zero_div]
  · unfold remapVertex compute_box_stat
    exact Prod.ext (hcorner _ _) (Prod.ext (hcorner _ _) (hcorner _ _))

/-- A concrete marching-cubes kernel producing two grid-space vertices and one face. -/
def mcKernelC : MCKernel := fun _ _ =>
  Except.ok ([(((0 : ℚ), 0, 0) : Vec3), ((32 : ℚ), 32, 32)], [(((0 : ℕ), 1, 2) : Face)])

/-- Witness for C2 at `bounds = 1.0`, `octree_resolution = 32`. -/
theorem mc_vertex_remap_witness :
    MCSurfaceExtractor.run mcKernelC ([] : List ℚ) 0 (Bounds.scalar 1) 32 =
      Except.ok ([(((0 : ℚ), 0, 0) : Vec3), ((32 : ℚ), 32, 32)].map
        (remapVertex (compute_box_stat (Bounds.scalar 1) 32).1
          (compute_box_stat (Bounds.scalar 1) 32).2.1
          (compute_box_stat (Bounds.scalar 1) 32).2.2), [(((0 : ℕ), 1, 2) : Face)]) ∧
    (compute_box_stat (Bounds.scalar 1) 32).2.1.1 +
        (compute_box_stat (Bounds.scalar 1) 32).2.2.1 * ((32 : ℤ) : ℚ) /
          (((32 : ℤ) : ℚ) + 1) ≠
      (compute_box_stat (Bounds.scalar 1) 32).2.1.1 +
        (compute_box_stat (Bounds.scalar 1) 32).2.2.1 := by
  have h := mc_vertex_remap mcKernelC ([] : List ℚ) 0 (Bounds.scalar 1) 32
      [(((0 : ℚ), 0, 0) : Vec3), ((32 : ℚ), 32, 32)] [(((0 : ℕ), 1, 2) : Face)]
      rfl (by decide) (by norm_num [compute_box_stat, vecSub])
      (by norm_num [compute_box_stat, vecSub]) (by norm_num [compute_box_stat, vecSub])
  exact ⟨h.1, h.2.2.2.2.1⟩

/- ### Lemmas about the DMC probe and paths -/

lemma probeStep_settled (st : DMCState) (p : Except PyExc Backend)
    (h : st.dmc.isSome = true ∨ st.use_fallback = true) :
    probeStep st p = Except.ok (st, false) := by
  rcases h with h | h
  · rcases hd : st.dmc with _ | B
    · rw [hd] at h; simp at h
    · simp [probeStep, hd]
  · simp [probeStep, h]

lemma probeStep_ok_settled (st st' : DMCState) (p : Except PyExc Backend) (w : Bool)
    (h : probeStep st p = Except.ok (st', w)) :
    st'.dmc.isSome = true ∨ st'.use_fallback = true := by
  unfold probeStep at h
  by_cases hc : (st.dmc.isNone && !st.use_fallback) = true
  · rw [if_pos hc] at h
    cases p with
    | ok B =>
      injection h with h1
      injection h1 with h1 h2
      rw [← h1]
      exact Or.inl rfl
    | error e =>
      cases e <;> simp only [recoverableInitError, if_true, if_false,
        reduceCtorEq] at h <;> first
        | (injection h with h1; injection h1 with h1 h2; rw [← h1]; exact Or.inr rfl)
        | exact absurd h (by simp)
  · rw [if_neg hc] at h
    injection h with h1
    injection h1 with h1 h2
    rw [← h1]
    simp only [Bool.and_eq_true, Bool.not_eq_true', not_and, Bool.not_eq_false] at hc
    rcases hd : st.dmc with _ | B
    · exact Or.inr (hc (by rw [hd]; rfl))
    · exact Or.inl rfl

lemma runAfterProbe_ok_state (mcK : MCKernel) (st : DMCState) (w : Bool)
    (g : ScalarField) (res : ℤ) (k : Kwargs) (st' : DMCState) (w' : Bool)
    (vs : List Vec3) (fs : List Face)
    (h : runAfterProbe mcK st w g res k = Except.ok (st', w', vs, fs)) :
    st' = st := by
  unfold runAfterProbe at h
  by_cases hf : st.use_fallback = true
  · rw [if_pos hf] at h
    rcases hfe : st.fallback_extractor with _ | u <;> rw [hfe] at h
    · exact absurd h (by simp)
    · rcases hr : MCSurfaceExtractor.runK mcK g res k with e | pr <;> rw [hr] at h
      · exact absurd h (by simp)
      · obtain ⟨vs1, fs1⟩ := pr
        injection h with h1
        injection h1 with h1 h2
        exact h1.symm
  · rw [if_neg hf] at h
    rcases hd : st.dmc with _ | B <;> rw [hd] at h
    · exact absurd h (by simp)
    · injection h with h1
      injection h1 with h1 h2
      exact h1.symm

lemma runAfterProbe_fallback (mcK : MCKernel) (st : DMCState) (w : Bool)
    (g : ScalarField) (res : ℤ) (k : Kwargs)
    (hf : st.use_fallback = true) (hfe : st.fallback_extractor = some ()) :
    runAfterProbe mcK st w g res k =
      (MCSurfaceExtractor.runK mcK g res k).map (fun r => (st, w, r.1, r.2)) := by
  unfold runAfterProbe
  rw [if_pos hf, hfe]
  rcases hr : MCSurfaceExtractor.runK mcK g res k with e | pr
  · rfl
  · obtain ⟨vs1, fs1⟩ := pr
    rfl

lemma dmc_primary (mcK : MCKernel) (st : DMCState) (B : Backend)
    (p : Except PyExc Backend) (g : ScalarField) (res : ℤ) (k : Kwargs)
    (hd : st.dmc = some B) (hf : st.use_fallback = false) :
    DMCSurfaceExtractor.run mcK st p g res k =
      Except.ok (st, false, center_vertices (B (sdfOf g res)).1,
        ((B (sdfOf g res)).2).map revFace) := by
  have hps : probeStep st p = Except.ok (st, false) :=
    probeStep_settled st p (Or.inl (by rw [hd]; rfl))
  unfold DMCSurfaceExtractor.run
  rw [hps]
  show runAfterProbe mcK st false g res k = _
  unfold runAfterProbe
  rw [if_neg (by rw [hf]; simp), hd]

/-- The instance state after the fallback decision on a fresh instance:
`_use_fallback = True`, `_fallback_extractor = MCSurfaceExtractor()`, still no
`dmc` attribute. -/
def fallbackState : DMCState :=
  { dmc := none, use_fallback := true, fallback_extractor := some () }

lemma probeStep_init_recoverable (e : PyExc)
    (he : e = PyExc.importError ∨ recoverableInitError e = true) :
    probeStep DMCSurfaceExtractor.init (Except.error e) =
      Except.ok (fallbackState, true) := by
  rcases he with he | he
  · rw [he]; rfl
  · cases e <;> first
      | rfl
      | simp [recoverableInitError] at he

lemma probeStep_init_unrecoverable (e : PyExc)
    (he1 : e ≠ PyExc.importError) (he2 : recoverableInitError e = false) :
    probeStep DMCSurfaceExtractor.init (Except.error e) = Except.error e := by
  cases e <;> first
    | rfl
    | exact absurd rfl he1
    | simp [recoverableInitError] at he2

lemma runK_extra (mcK : MCKernel) (g : ScalarField) (res : ℤ)
    (m : Option ℚ) (b : Option Bounds) (e₁ e₂ : List (String × ℚ)) :
    MCSurfaceExtractor.runK mcK g res { mc_level := m, bounds := b, extra := e₁ } =
      MCSurfaceExtractor.runK mcK g res { mc_level := m, bounds := b, extra := e₂ } := by
  cases m <;> cases b <;> rfl

/-- C4: once a DMC extractor instance has either acquired the backend handle or
set the fallback flag, every later call skips the probe (its result does not
depend on the probe outcome) and leaves the instance state unchanged; and every
call that returns leaves the instance in such a settled state — permanently. -/
theorem dmc_probe_memoized (mcK : MCKernel) (st : DMCState) (g : ScalarField)
    (res : ℤ) (k : Kwargs) :
    ((st.dmc.isSome = true ∨ st.use_fallback = true) →
      (∀ p₁ p₂, DMCSurfaceExtractor.run mcK st p₁ g res k =
        DMCSurfaceExtractor.run mcK st p₂ g res k) ∧
      (∀ p st' w vs fs, DMCSurfaceExtractor.run mcK st p g res k =
          Except.ok (st', w, vs, fs) → st' = st)) ∧
    (∀ p st' w vs fs, DMCSurfaceExtractor.run mcK st p g res k =
        Except.ok (st', w, vs, fs) →
      st'.dmc.isSome = true ∨ st'.use_fallback = true) := by
  constructor
  · intro hs
    constructor
    · intro p₁ p₂
      unfold DMCSurfaceExtractor.run
      rw [probeStep_settled st p₁ hs, probeStep_settled st p₂ hs]
    · intro p st' w vs fs h
      unfold DMCSurfaceExtractor.run at h
      rw [probeStep_settled st p hs] at h
      exact runAfterProbe_ok_state mcK st false g res k st' w vs fs h
  · intro p st' w vs fs h
    unfold DMCSurfaceExtractor.run at h
    rcases hp : probeStep st p with e | pr <;> rw [hp] at h
    · exact absurd h (by simp)
    · obtain ⟨st₁, w₁⟩ := pr
      rw [runAfterProbe_ok_state mcK st₁ w₁ g res k st' w vs fs h]
      exact probeStep_ok_settled st st₁ p w₁ hp

/-- A concrete DMC backend handle producing two vertices and one face. -/
def backendC : Backend := fun _ =>
  ([(((1 : ℚ), 1, 1) : Vec3), ((3 : ℚ), 5, 7)], [(((0 : ℕ), 1, 2) : Face)])

/-- A DMC extractor instance state that has acquired the backend handle. -/
def stC : DMCState := { dmc := some backendC, use_fallback := false, fallback_extractor := none }

/-- Witness for C4: on a settled instance the run result is identical under a
succeeding probe and a failing probe. -/
theorem dmc_probe_memoized_witness :
    DMCSurfaceExtractor.run mcKernelC stC (Except.error (PyExc.other "gone"))
        ([] : List ℚ) 32 { mc_level := none, bounds := none, extra := [] } =
      DMCSurfaceExtractor.run mcKernelC stC (Except.ok backendC)
        ([] : List ℚ) 32 { mc_level := none, bounds := none, extra := [] } :=
  ((dmc_probe_memoized mcKernelC stC ([] : List ℚ) 32
      { mc_level := none, bounds := none, extra := [] }).1 (Or.inl rfl)).1 _ _

/-- C5: on a fresh DMC instance, an import failure or a recoverable
initialization error (RuntimeError, ValueError, TypeError, AttributeError)
never propagates: the call warns, sets the permanent fallback flag, and
delegates to an internal Classic-MC extractor; any exception outside this set
propagates uncaught. -/
theorem dmc_recoverable_init_no_propagation (mcK : MCKernel) (g : ScalarField)
    (res : ℤ) (k : Kwargs) (e : PyExc) :
    ((e = PyExc.importError ∨ recoverableInitError e = true) →
      DMCSurfaceExtractor.run mcK DMCSurfaceExtractor.init (Except.error e) g res k =
        (MCSurfaceExtractor.runK mcK g res k).map
          (fun r => (fallbackState, true, r.1, r.2))) ∧
    (e ≠ PyExc.importError → recoverableInitError e = false →
      DMCSurfaceExtractor.run mcK DMCSurfaceExtractor.init (Except.error e) g res k =
        Except.error e) := by
  constructor
  · intro he
    unfold DMCSurfaceExtractor.run
    rw [probeStep_init_recoverable e he]
    show runAfterProbe mcK _ true g res k = _
    exact runAfterProbe_fallback mcK _ true g res k rfl rfl
  · intro he1 he2
    unfold DMCSurfaceExtractor.run
    rw [probeStep_init_unrecoverable e he1 he2]

/-- Witness for C5: a fresh instance whose probe raises `RuntimeError`
delegates to Classic-MC with the fallback flag set. -/
theorem dmc_recoverable_init_no_propagation_witness :
    DMCSurfaceExtractor.run mcKernelC DMCSurfaceExtractor.init
        (Except.error PyExc.runtimeError) ([] : List ℚ) 32
        { mc_level := some 0, bounds := some (Bounds.scalar 1), extra := [] } =
      (MCSurfaceExtractor.runK mcKernelC ([] : List ℚ) 32
        { mc_level := some 0, bounds := some (Bounds.scalar 1), extra := [] }).map
        (fun r => (fallbackState, true, r.1, r.2)) :=
  (dmc_recoverable_init_no_propagation mcKernelC ([] : List ℚ) 32
      { mc_level := some 0, bounds := some (Bounds.scalar 1), extra := [] }
      PyExc.runtimeError).1 (Or.inr rfl)

/-- C6: on the DMC primary (backend) path every output face is the
index-reversed form `(a,b,c) ↦ (c,b,a)` of the corresponding raw backend face,
unconditionally. -/
theorem dmc_winding_reversed (mcK : MCKernel) (st : DMCState) (B : Backend)
    (p : Except PyExc Backend) (g : ScalarField) (res : ℤ) (k : Kwargs)
    (hd : st.dmc = some B) (hf : st.use_fallback = false) :
    DMCSurfaceExtractor.run mcK st p g res k =
      Except.ok (st, false, center_vertices (B (sdfOf g res)).1,
        ((B (sdfOf g res)).2).map revFace) ∧
    (∀ i : ℕ, (((B (sdfOf g res)).2).map revFace)[i]? =
      ((B (sdfOf g res)).2)[i]?.map revFace) ∧
    (∀ a b c : ℕ, revFace ((a, b, c) : Face) = ((c, b, a) : Face)) :=
  ⟨dmc_primary mcK st B p g res k hd hf,
   fun i => List.getElem?_map _ _ _,
   fun _ _ _ => rfl⟩

/-- Witness for C6 on a concrete backend output. -/
theorem dmc_winding_reversed_witness :
    DMCSurfaceExtractor.run mcKernelC stC (Except.ok backendC) ([] : List ℚ) 32
        { mc_level := none, bounds := none, extra := [] } =
      Except.ok (stC, false, center_vertices (backendC (sdfOf ([] : List ℚ) 32)).1,
        ((backendC (sdfOf ([] : List ℚ) 32)).2).map revFace) :=
  (dmc_winding_reversed mcKernelC stC backendC (Except.ok backendC) ([] : List ℚ) 32
      { mc_level := none, bounds := none, extra := [] } rfl rfl).1

/-- C7: on the DMC primary path the returned vertices are the backend's
vertices translated by `-0.5*(min+max)` per axis (`center_vertices`), so for a
non-empty output the bounding box is centered at the origin:
componentwise `min + max = 0`. -/
theorem dmc_output_centered (mcK : MCKernel) (st : DMCState) (B : Backend)
    (p : Except PyExc Backend) (g : ScalarField) (res : ℤ) (k : Kwargs)
    (hd : st.dmc = some B) (hf : st.use_fallback = false) :
    DMCSurfaceExtractor.run mcK st p g res k =
      Except.ok (st, false, center_vertices (B (sdfOf g res)).1,
        ((B (sdfOf g res)).2).map revFace) ∧
    ((B (sdfOf g res)).1 ≠ [] →
      vecAdd (vertMin (center_vertices (B (sdfOf g res)).1))
             (vertMax (center_vertices (B (sdfOf g res)).1)) =
        ((0 : ℚ), (0 : ℚ), (0 : ℚ))) :=
  ⟨dmc_primary mcK st B p g res k hd hf,
   fun h => center_vertices_min_add_max _ h⟩

/-- Witness for C7: the concrete backend output has an origin-centered
bounding box after `center_vertices`. -/
theorem dmc_output_centered_witness :
    vecAdd (vertMin (center_vertices (backendC (sdfOf ([] : List ℚ) 32)).1))
           (vertMax (center_vertices (backendC (sdfOf ([] : List ℚ) 32)).1)) =
      ((0 : ℚ), (0 : ℚ), (0 : ℚ)) :=
  (dmc_output_centered mcKernelC stC backendC (Except.ok backendC) ([] : List ℚ) 32
      { mc_level := none, bounds := none, extra := [] } rfl rfl).2 (by decide)

/-- C8: `DMCSurfaceExtractor.run` accepts and ignores any extra keyword-style
parameters, on every call and on both the primary and the fallback path: the
result does not depend on the `extra` keyword dictionary. -/
theorem dmc_ignores_extra_kwargs (mcK : MCKernel) (st : DMCState)
    (p : Except PyExc Backend) (g : ScalarField) (res : ℤ)
    (m : Option ℚ) (b : Option Bounds) (e₁ e₂ : List (String × ℚ)) :
    DMCSurfaceExtractor.run mcK st p g res { mc_level := m, bounds := b, extra := e₁ } =
      DMCSurfaceExtractor.run mcK st p g res { mc_level := m, bounds := b, extra := e₂ } := by
  unfold DMCSurfaceExtractor.run
  rcases hp : probeStep st p with e | pr
  · rfl
  · obtain ⟨st', w⟩ := pr
    show runAfterProbe mcK st' w g res _ = runAfterProbe mcK st' w g res _
    unfold runAfterProbe
    rw [runK_extra mcK g res m b e₁ e₂]
